import Mathlib

/-!
Shallow embedding of `crates/editor/src/scroll.rs` (scroll-state management of
an editor view): the anchor-based scroll-position model, the axis-locking input
filter, the scroll-manager mutation entry points with their observable side
effects, the scrollbar auto-hide timer lifecycle, and persistence restore.

Modelling conventions:
- `f32` values are modelled as `ℚ` (exact arithmetic; the source's float
  arithmetic on these code paths is plain add/sub/compare).
- `Instant`/`Duration` are modelled as `ℚ` milliseconds; `Instant::now()`
  becomes an explicit `now` parameter.
- `Anchor`, buffer points and display snapshots are external collaborators
  (the display-map and multibuffer crates); they are modelled as opaque data
  plus the query functions the scroll code calls on them.
- The `ViewContext` side-effect channel (event emission, redraw notification,
  background persistence writes, the process-global scrollbar auto-hide flag,
  timer spawning) is modelled as an explicit `Ctx` record threaded through the
  mutation entry points.
-/

namespace Scroll

/-- 2D vector of `f32` (gpui `Vector2F`), components modelled as `ℚ`. -/
structure Vector2F where
  x : ℚ
  y : ℚ
  deriving DecidableEq, Repr

/-- `vec2f` constructor from gpui. -/
def vec2f (x y : ℚ) : Vector2F := ⟨x, y⟩

/-- `Vector2F::zero()`. -/
def Vector2F.zero : Vector2F := ⟨0, 0⟩

/-- `Vector2F::max`: componentwise maximum. -/
def Vector2F.max (a b : Vector2F) : Vector2F := ⟨Max.max a.x b.x, Max.max a.y b.y⟩

/-- Buffer-location anchor (external `Anchor` type, opaque identity with
decidable equality). -/
structure Anchor where
  id : ℕ
  deriving DecidableEq, Repr

/-- `Anchor::min()`: the sentinel start-of-buffer anchor. -/
def Anchor.min : Anchor := ⟨0⟩

/-- Buffer-space point (`language::Point`). -/
structure Point where
  row : ℕ
  column : ℕ
  deriving DecidableEq, Repr

/-- Display-space point (`DisplayPoint`). -/
structure DisplayPoint where
  row : ℕ
  column : ℕ
  deriving DecidableEq, Repr

/-- Anchor bias (`language::Bias`). -/
inductive Bias where
  | left
  | right
  deriving DecidableEq, Repr

/-- Scroll axis (gpui `Axis`). -/
inductive Axis where
  | horizontal
  | vertical
  deriving DecidableEq, Repr

/-- The queries the scroll code makes of a `MultiBufferSnapshot`
(external collaborator, modelled as its query functions). -/
structure MultiBufferSnapshot where
  anchor_at : Point → Bias → Anchor
  anchor_to_point : Anchor → Point

/-- The queries the scroll code makes of a `DisplaySnapshot`
(external collaborator): its multibuffer snapshot, `DisplayPoint::to_point`,
and `Anchor::to_display_point(..).row()`. -/
structure DisplaySnapshot where
  buffer_snapshot : MultiBufferSnapshot
  display_point_to_point : DisplayPoint → Point
  anchor_display_row : Anchor → ℕ

/-- `ScrollAnchor`: persistent scroll position as a buffer anchor plus
sub-row offset. -/
structure ScrollAnchor where
  offset : Vector2F
  top_anchor : Anchor
  deriving DecidableEq, Repr

/-- `ScrollAnchor::new()`. -/
def ScrollAnchor.new : ScrollAnchor :=
  { offset := Vector2F.zero, top_anchor := Anchor.min }

/-- `ScrollAnchor::scroll_position`: resolve the anchor against a display
snapshot. For a non-sentinel anchor, y is the anchor's display row plus
`offset.y`; for the sentinel anchor the y component is set to `0.`. -/
def ScrollAnchor.scroll_position (a : ScrollAnchor) (snapshot : DisplaySnapshot) :
    Vector2F :=
  if a.top_anchor ≠ Anchor.min then
    { a.offset with y := (snapshot.anchor_display_row a.top_anchor : ℚ) + a.offset.y }
  else
    { a.offset with y := 0 }

/-- `ScrollAnchor::top_row`: the anchor's buffer row. -/
def ScrollAnchor.top_row (a : ScrollAnchor) (buffer : MultiBufferSnapshot) : ℕ :=
  (buffer.anchor_to_point a.top_anchor).row

/-- A fixed sample multibuffer snapshot, used only to instantiate theorems at
concrete inputs: `anchor_at` tags the anchor with `row + 1` (never the
sentinel, whose id is 0). -/
def sampleBuffer : MultiBufferSnapshot where
  anchor_at := fun p _ => ⟨p.row + 1⟩
  anchor_to_point := fun a => ⟨a.id - 1, 0⟩

/-- A fixed sample display snapshot over `sampleBuffer`: display rows coincide
with buffer rows. -/
def sampleSnapshot : DisplaySnapshot where
  buffer_snapshot := sampleBuffer
  display_point_to_point := fun dp => ⟨dp.row, dp.column⟩
  anchor_display_row := fun a => a.id - 1

/-- `SCROLL_EVENT_SEPARATION` (28 ms), in the ℚ-milliseconds time model. -/
def SCROLL_EVENT_SEPARATION : ℚ := 28

/-- `OngoingScroll`: the axis-lock state of the current scroll gesture. -/
structure OngoingScroll where
  last_event : ℚ
  axis : Option Axis
  deriving DecidableEq, Repr

/-- `OngoingScroll::new()`, with `Instant::now()` taken as time `now`. -/
def OngoingScroll.new (now : ℚ) : OngoingScroll :=
  { last_event := now - SCROLL_EVENT_SEPARATION, axis := none }

/-- `OngoingScroll::filter`: axis-lock filtering of a raw scroll delta.
Returns the resolved axis together with the (possibly zeroed) delta; the
source mutates `delta` in place. `Instant::now()` is the `now` parameter. -/
def OngoingScroll.filter (s : OngoingScroll) (now : ℚ) (delta : Vector2F) :
    Option Axis × Vector2F :=
  let UNLOCK_PERCENT : ℚ := 19 / 10
  let UNLOCK_LOWER_BOUND : ℚ := 6
  let x := |delta.x|
  let y := |delta.y|
  let duration := now - s.last_event
  let axis : Option Axis :=
    if SCROLL_EVENT_SEPARATION < duration then
      -- New ongoing scroll will start, determine axis
      if x ≤ y then some Axis.vertical else some Axis.horizontal
    else if UNLOCK_LOWER_BOUND ≤ Max.max x y then
      -- Check if the current ongoing will need to unlock
      match s.axis with
      | some Axis.vertical => if y < x ∧ y * UNLOCK_PERCENT ≤ x then none else s.axis
      | some Axis.horizontal => if x < y ∧ x * UNLOCK_PERCENT ≤ y then none else s.axis
      | none => none
    else s.axis
  match axis with
  | some Axis.vertical => (axis, vec2f 0 delta.y)
  | some Axis.horizontal => (axis, vec2f delta.x 0)
  | none => (axis, delta)

/-- Events emitted on the view's event channel (`Event::ScrollPositionChanged`
is the only one this module emits). -/
inductive Event where
  | scrollPositionChanged (isLocal : Bool)
  deriving DecidableEq, Repr

/-- Opaque `Autoscroll` request payload. -/
structure Autoscroll where
  id : ℕ
  deriving DecidableEq, Repr

/-- The observable side-effect channel of a `ViewContext` as used by this
module: emitted events, `cx.notify()` calls (counted), persistence writes
spawned via `DB.save_scroll_position` (recorded as `(top_row, x, y)` tuples),
the process-global `ScrollbarAutoHide` flag, and a fresh-id supply for spawned
hide-timer tasks. -/
structure Ctx where
  events : List Event
  redraws : ℕ
  saves : List (ℕ × ℚ × ℚ)
  auto_hide : Bool
  next_timer_id : ℕ
  deriving DecidableEq, Repr

/-- `cx.notify()`. -/
def Ctx.notify (cx : Ctx) : Ctx := { cx with redraws := cx.redraws + 1 }

/-- `cx.emit(event)`. -/
def Ctx.emit (cx : Ctx) (e : Event) : Ctx := { cx with events := cx.events ++ [e] }

/-- A fresh side-effect channel with the given auto-hide setting. -/
def Ctx.init (auto_hide : Bool) : Ctx :=
  { events := [], redraws := 0, saves := [], auto_hide := auto_hide, next_timer_id := 0 }

/-- `ScrollManager`. The `AutoscrollStrategy` inside the last-autoscroll cache
is opaque (modelled as `ℕ`); the in-flight hide-timer `Task<()>` handle is
modelled by the id of the spawned timer. -/
structure ScrollManager where
  vertical_scroll_margin : ℚ
  anchor : ScrollAnchor
  ongoing : OngoingScroll
  autoscroll_request : Option (Autoscroll × Bool)
  last_autoscroll : Option (Vector2F × ℚ × ℚ × ℕ)
  show_scrollbars : Bool
  hide_scrollbar_task : Option ℕ
  visible_line_count : Option ℚ
  deriving DecidableEq, Repr

/-- `ScrollManager::new()`, with `Instant::now()` taken as time `now`. -/
def ScrollManager.new (now : ℚ) : ScrollManager where
  vertical_scroll_margin := 3
  anchor := ScrollAnchor.new
  ongoing := OngoingScroll.new now
  autoscroll_request := none
  last_autoscroll := none
  show_scrollbars := true
  hide_scrollbar_task := none
  visible_line_count := none

/-- `ScrollManager::has_autoscroll_request`. -/
def ScrollManager.has_autoscroll_request (m : ScrollManager) : Bool :=
  m.autoscroll_request.isSome

/-- `ScrollManager::show_scrollbar`: set visibility (notifying on a
false→true transition), then — if the process-global auto-hide flag is set —
spawn a fresh hide timer whose handle replaces (and thereby cancels) any prior
one; otherwise drop any pending timer. -/
def ScrollManager.show_scrollbar (m : ScrollManager) (cx : Ctx) :
    ScrollManager × Ctx :=
  let p :=
    if !m.show_scrollbars then
      ({ m with show_scrollbars := true }, cx.notify)
    else
      (m, cx)
  let m := p.1
  let cx := p.2
  if cx.auto_hide then
    ({ m with hide_scrollbar_task := some cx.next_timer_id },
     { cx with next_timer_id := cx.next_timer_id + 1 })
  else
    ({ m with hide_scrollbar_task := none }, cx)

/-- Modelled from the spec: the firing of a spawned hide-timer task. The task
body (`scroll.rs` lines 248-256) sets `show_scrollbars = false` and notifies;
gpui's `Task` is drop-to-cancel (not under `src/`), and the spec states that
assigning a new handle into `hide_scrollbar_task` "implicitly cancels/drops
the prior one on overwrite", so a timer whose id is no longer the stored
handle has been cancelled and its firing is a no-op. Redraw notification by
the timer body is omitted; the claim concerns visibility only. -/
def ScrollManager.fire_hide_timer (m : ScrollManager) (timer_id : ℕ) : ScrollManager :=
  if m.hide_scrollbar_task = some timer_id then
    { m with show_scrollbars := false }
  else
    m

/-- `ScrollManager::set_anchor`: replace the anchor, emit
`ScrollPositionChanged`, show the scrollbar, take the pending autoscroll
request, spawn a persistence write when a workspace id is present, notify. -/
def ScrollManager.set_anchor (m : ScrollManager) (anchor : ScrollAnchor)
    (top_row : ℕ) (isLocal : Bool) (workspace_id : Option ℤ) (cx : Ctx) :
    ScrollManager × Ctx :=
  let m := { m with anchor := anchor }
  let cx := cx.emit (Event.scrollPositionChanged isLocal)
  let p := m.show_scrollbar cx
  let m := p.1
  let cx := p.2
  let m := { m with autoscroll_request := none }
  let cx :=
    match workspace_id with
    | some _ => { cx with saves := cx.saves ++ [(top_row, anchor.offset.x, anchor.offset.y)] }
    | none => cx
  (m, cx.notify)

/-- `ScrollManager::set_scroll_position`: for a non-positive target y, the
sentinel anchor with the target clamped elementwise at zero and row 0;
otherwise resolve the display row `target.y as u32` to a buffer point, take a
right-biased anchor there, and keep the fractional remainder in `offset.y`.
(`as u32` on a positive finite `f32` truncates, i.e. `⌊·⌋.toNat` here.) -/
def ScrollManager.set_scroll_position (m : ScrollManager)
    (scroll_position : Vector2F) (map : DisplaySnapshot) (isLocal : Bool)
    (workspace_id : Option ℤ) (cx : Ctx) : ScrollManager × Ctx :=
  let p : ScrollAnchor × ℕ :=
    if scroll_position.y ≤ 0 then
      ({ top_anchor := Anchor.min, offset := scroll_position.max (vec2f 0 0) }, 0)
    else
      let scroll_top_buffer_point :=
        map.display_point_to_point ⟨(⌊scroll_position.y⌋).toNat, 0⟩
      let top_anchor := map.buffer_snapshot.anchor_at scroll_top_buffer_point Bias.right
      ({ top_anchor := top_anchor,
         offset := vec2f scroll_position.x
           (scroll_position.y - (map.anchor_display_row top_anchor : ℚ)) },
       scroll_top_buffer_point.row)
  m.set_anchor p.1 p.2 isLocal workspace_id cx

/-- `ScrollManager::clamp_scroll_left`: clamp the horizontal offset down to
`mx`, reporting whether anything changed. -/
def ScrollManager.clamp_scroll_left (m : ScrollManager) (mx : ℚ) :
    Bool × ScrollManager :=
  if mx < m.anchor.offset.x then
    (true, { m with anchor := { m.anchor with offset := { m.anchor.offset with x := mx } } })
  else
    (false, m)

/-- `clamp_scroll_left`'s Rust signature takes no `ViewContext`, so a call to
it within an update turn leaves the side-effect channel untouched; this runner
makes that explicit for frame-effect statements. -/
def ScrollManager.clamp_scroll_left_run (m : ScrollManager) (mx : ℚ) (cx : Ctx) :
    (Bool × ScrollManager) × Ctx :=
  (m.clamp_scroll_left mx, cx)

/-- Opaque persistence-layer error (`anyhow::Error` from the DB query). -/
structure DbError where
  code : ℕ
  deriving DecidableEq, Repr

/-- The slice of `Editor` state the scroll module touches: its scroll
manager, the current multibuffer snapshot, and its workspace id. -/
structure Editor where
  scroll_manager : ScrollManager
  buffer_snapshot : MultiBufferSnapshot
  workspace_id : Option ℤ

/-- `Editor::set_scroll_anchor`: resolve the anchor's buffer row and delegate
to `ScrollManager::set_anchor` with `local = true`. (`hide_hover` touches
only hover-popover state, outside this model.) -/
def Editor.set_scroll_anchor (e : Editor) (scroll_anchor : ScrollAnchor) (cx : Ctx) :
    Editor × Ctx :=
  let top_row := (e.buffer_snapshot.anchor_to_point scroll_anchor.top_anchor).row
  let p := e.scroll_manager.set_anchor scroll_anchor top_row true e.workspace_id cx
  ({ e with scroll_manager := p.1 }, p.2)

/-- `Editor::read_scroll_position_from_db`: the DB query result is passed in
explicitly (`DB.get_scroll_position` is an external collaborator). Only an
`Ok(Some(..))` result mutates anything: a left-biased anchor at the stored
row restores the scroll anchor; an error or a missing record does nothing. -/
def Editor.read_scroll_position_from_db (e : Editor)
    (scroll_position : Except DbError (Option (ℕ × ℚ × ℚ))) (cx : Ctx) :
    Editor × Ctx :=
  match scroll_position with
  | Except.ok (some (top_row, x, y)) =>
      let top_anchor := e.buffer_snapshot.anchor_at ⟨top_row, 0⟩ Bias.left
      e.set_scroll_anchor { offset := ⟨x, y⟩, top_anchor := top_anchor } cx
  | _ => (e, cx)

/-- The dominance half of the axis-unlock test in `OngoingScroll::filter`
(`scroll.rs` lines 97-111), as a predicate over the locked axis and the
absolute delta components: a vertical lock unlocks when
`x > y && x >= y * UNLOCK_PERCENT`, a horizontal lock symmetrically. -/
def unlock_dominates (a : Axis) (x y : ℚ) : Prop :=
  match a with
  | Axis.vertical => y < x ∧ y * (19 / 10) ≤ x
  | Axis.horizontal => x < y ∧ x * (19 / 10) ≤ y

instance (a : Axis) (x y : ℚ) : Decidable (unlock_dominates a x y) := by
  unfold unlock_dominates
  cases a <;> infer_instance

/-- Full characterization of `ScrollManager::set_anchor`: the resulting
manager and side-effect channel, in one record equation. -/
theorem set_anchor_eq (m : ScrollManager) (a : ScrollAnchor) (tr : ℕ) (l : Bool)
    (w : Option ℤ) (cx : Ctx) :
    m.set_anchor a tr l w cx =
      ({ m with
          anchor := a
          autoscroll_request := none
          show_scrollbars := true
          hide_scrollbar_task := if cx.auto_hide then some cx.next_timer_id else none },
       { cx with
          events := cx.events ++ [Event.scrollPositionChanged l]
          redraws := cx.redraws + (if m.show_scrollbars then 1 else 2)
          saves := cx.saves ++ (match w with
            | some _ => [(tr, a.offset.x, a.offset.y)]
            | none => [])
          next_timer_id := cx.next_timer_id + (if cx.auto_hide then 1 else 0) }) := by
  cases w <;> cases hs : m.show_scrollbars <;> cases hc : cx.auto_hide <;>
    simp [ScrollManager.set_anchor, ScrollManager.show_scrollbar, Ctx.emit, Ctx.notify, hs, hc]

/-- C1, counterexample: for the sentinel start-of-buffer anchor with
`offset = (1, 5)`, `ScrollAnchor::scroll_position` returns y-component `0` —
not `offset.y` clamped to `≥ 0` (which would be `5`). The sentinel branch of
the source sets y to `0.`, discarding `offset.y`. -/
theorem C1_counterexample :
    ((ScrollAnchor.mk (vec2f 1 5) Anchor.min).scroll_position sampleSnapshot).y = 0 ∧
    ((ScrollAnchor.mk (vec2f 1 5) Anchor.min).scroll_position sampleSnapshot).y ≠
      Max.max (ScrollAnchor.mk (vec2f 1 5) Anchor.min).offset.y 0 := by
  constructor <;> simp [ScrollAnchor.scroll_position, Anchor.min, vec2f]

/-- C1, amended: for every display snapshot, `ScrollAnchor::scroll_position`
of an anchor whose `top_anchor` is the sentinel start-of-buffer anchor returns
a vector whose y-component is `0` (offset.y is ignored, not clamped); for a
non-sentinel anchor the y-component is the display row of `top_anchor` plus
`offset.y`; the x-component is always `offset.x`. -/
theorem C1_amended (a : ScrollAnchor) (snapshot : DisplaySnapshot) :
    (a.scroll_position snapshot).x = a.offset.x ∧
    (a.scroll_position snapshot).y =
      (if a.top_anchor = Anchor.min then 0
       else (snapshot.anchor_display_row a.top_anchor : ℚ) + a.offset.y) := by
  unfold ScrollAnchor.scroll_position
  by_cases h : a.top_anchor = Anchor.min <;> simp [h]

/-- C2: for every target position with `0 < y` and every display snapshot
(whose `anchor_at` yields a non-sentinel anchor at the resolved point, as the
multibuffer guarantees), `ScrollManager::set_scroll_position` followed by
`ScrollAnchor::scroll_position` against the same snapshot gives back exactly
the target vector: the anchor stores `offset.y = target_y - row(anchor)`, so
fractional-row positions round-trip losslessly, and `x` passes through. -/
theorem C2_round_trip (m : ScrollManager) (pos : Vector2F) (map : DisplaySnapshot)
    (isLocal : Bool) (workspace_id : Option ℤ) (cx : Ctx)
    (hy : 0 < pos.y)
    (hanchor : map.buffer_snapshot.anchor_at
        (map.display_point_to_point ⟨(⌊pos.y⌋).toNat, 0⟩) Bias.right ≠ Anchor.min) :
    ((m.set_scroll_position pos map isLocal workspace_id cx).1.anchor).scroll_position map
      = pos := by
  obtain ⟨px, py⟩ := pos
  simp only [ScrollManager.set_scroll_position, set_anchor_eq, not_le.mpr hy, if_false] at *
  simp only [ScrollAnchor.scroll_position, vec2f, ne_eq, hanchor, not_false_iff, if_true,
    if_pos]
  simp

/-- C2, witness: the round trip at target `(2, 7/2)` over the sample
snapshot. -/
theorem C2_round_trip_witness :
    (0 : ℚ) < (vec2f 2 (7/2)).y ∧
    sampleSnapshot.buffer_snapshot.anchor_at
        (sampleSnapshot.display_point_to_point ⟨(⌊(vec2f 2 (7/2)).y⌋).toNat, 0⟩) Bias.right
      ≠ Anchor.min ∧
    (((ScrollManager.new 0).set_scroll_position (vec2f 2 (7/2)) sampleSnapshot true
        (some 7) (Ctx.init true)).1.anchor).scroll_position sampleSnapshot = vec2f 2 (7/2) := by
  refine ⟨by norm_num [vec2f], ?_, ?_⟩
  · simp [sampleSnapshot, sampleBuffer, Anchor.min]
  · exact C2_round_trip _ _ _ _ _ _ (by norm_num [vec2f])
      (by simp [sampleSnapshot, sampleBuffer, Anchor.min])

/-- C3: for every target position with `y ≤ 0`,
`ScrollManager::set_scroll_position` produces the sentinel start-of-buffer
anchor with offset the elementwise maximum of the target and `(0, 0)` (so
`offset.y = 0`), and persists buffer row `0`. -/
theorem C3_nonpositive (m : ScrollManager) (pos : Vector2F) (map : DisplaySnapshot)
    (isLocal : Bool) (w : ℤ) (cx : Ctx) (hy : pos.y ≤ 0) :
    (m.set_scroll_position pos map isLocal (some w) cx).1.anchor.top_anchor = Anchor.min ∧
    (m.set_scroll_position pos map isLocal (some w) cx).1.anchor.offset
      = pos.max (vec2f 0 0) ∧
    (m.set_scroll_position pos map isLocal (some w) cx).1.anchor.offset.y = 0 ∧
    (m.set_scroll_position pos map isLocal (some w) cx).2.saves
      = cx.saves ++ [(0, (pos.max (vec2f 0 0)).x, (pos.max (vec2f 0 0)).y)] := by
  simp only [ScrollManager.set_scroll_position, set_anchor_eq, if_pos hy]
  simp [Vector2F.max, vec2f, max_eq_right hy]

/-- C3, witness: target `(3, -5)` yields offset `(3, 0)` and persists row 0. -/
theorem C3_nonpositive_witness :
    (vec2f 3 (-5)).y ≤ 0 ∧
    ((ScrollManager.new 0).set_scroll_position (vec2f 3 (-5)) sampleSnapshot true
        (some 7) (Ctx.init true)).1.anchor.offset = vec2f 3 0 ∧
    ((ScrollManager.new 0).set_scroll_position (vec2f 3 (-5)) sampleSnapshot true
        (some 7) (Ctx.init true)).2.saves = [(0, 3, 0)] := by
  have h := C3_nonpositive (ScrollManager.new 0) (vec2f 3 (-5)) sampleSnapshot true 7
    (Ctx.init true) (by norm_num [vec2f])
  refine ⟨by norm_num [vec2f], ?_, ?_⟩
  · rw [h.2.1]; norm_num [Vector2F.max, vec2f]
  · rw [h.2.2.2]; norm_num [Vector2F.max, vec2f, Ctx.init]

/-- C4: when the time since the last recorded scroll event exceeds the 28 ms
separation threshold, `OngoingScroll::filter` starts a new gesture: it locks
vertical if `|x| ≤ |y|` (ties favor vertical) and horizontal otherwise, and
zeroes the non-locked component of the delta. -/
theorem C4_new_gesture (s : OngoingScroll) (now : ℚ) (delta : Vector2F)
    (h : SCROLL_EVENT_SEPARATION < now - s.last_event) :
    s.filter now delta =
      (if |delta.x| ≤ |delta.y| then (some Axis.vertical, vec2f 0 delta.y)
       else (some Axis.horizontal, vec2f delta.x 0)) := by
  unfold OngoingScroll.filter
  simp only [if_pos h]
  by_cases hxy : |delta.x| ≤ |delta.y| <;> simp [hxy]

/-- C4, witness: after an idle gap, delta `(3, 10)` locks Vertical with
filtered delta `(0, 10)`, and `(10, 3)` locks Horizontal with `(10, 0)`. -/
theorem C4_new_gesture_witness :
    SCROLL_EVENT_SEPARATION < (100 : ℚ) - (0 : ℚ) ∧
    OngoingScroll.filter ⟨0, none⟩ 100 (vec2f 3 10) = (some Axis.vertical, vec2f 0 10) ∧
    OngoingScroll.filter ⟨0, none⟩ 100 (vec2f 10 3) = (some Axis.horizontal, vec2f 10 0) := by
  refine ⟨by norm_num [SCROLL_EVENT_SEPARATION], ?_, ?_⟩
  · rw [C4_new_gesture ⟨0, none⟩ 100 (vec2f 3 10) (by norm_num [SCROLL_EVENT_SEPARATION])]
    norm_num [vec2f, abs]
  · rw [C4_new_gesture ⟨0, none⟩ 100 (vec2f 10 3) (by norm_num [SCROLL_EVENT_SEPARATION])]
    norm_num [vec2f, abs]

/-- C5: for a delta arriving within the 28 ms separation window while an axis
is locked, `OngoingScroll::filter` unlocks (returns `none`, passing the delta
through unchanged) exactly when `max(|x|, |y|)` meets the unlock lower bound
of 6 and the opposite component dominates the locked one by a factor of at
least 1.9 (vertical lock: `|x| > |y|` and `|x| ≥ 1.9 * |y|`; symmetric for a
horizontal lock). -/
theorem C5_unlock (s : OngoingScroll) (now : ℚ) (delta : Vector2F) (a : Axis)
    (hlock : s.axis = some a)
    (hwin : now - s.last_event ≤ SCROLL_EVENT_SEPARATION) :
    ((s.filter now delta).1 = none ↔
      (6 ≤ Max.max |delta.x| |delta.y| ∧ unlock_dominates a |delta.x| |delta.y|)) ∧
    ((s.filter now delta).1 = none → (s.filter now delta).2 = delta) := by
  unfold OngoingScroll.filter
  simp only [hlock, if_neg (not_lt.mpr hwin)]
  by_cases hmax : (6 : ℚ) ≤ Max.max |delta.x| |delta.y|
  · cases a <;> simp only [if_pos hmax, hmax, true_and, unlock_dominates]
    · by_cases hd : |delta.x| < |delta.y| ∧ |delta.x| * (19 / 10) ≤ |delta.y| <;> simp [hd]
    · by_cases hd : |delta.y| < |delta.x| ∧ |delta.y| * (19 / 10) ≤ |delta.x| <;> simp [hd]
  · cases a <;> simp [if_neg hmax, hmax, unlock_dominates]

/-- C5, witness: a Vertical lock given delta `(20, 5)` within the window
unlocks to `none`, with the delta passed through unchanged. -/
theorem C5_unlock_witness :
    (⟨0, some Axis.vertical⟩ : OngoingScroll).axis = some Axis.vertical ∧
    (10 : ℚ) - (0 : ℚ) ≤ SCROLL_EVENT_SEPARATION ∧
    (OngoingScroll.filter ⟨0, some Axis.vertical⟩ 10 (vec2f 20 5)).1 = none ∧
    (OngoingScroll.filter ⟨0, some Axis.vertical⟩ 10 (vec2f 20 5)).2 = vec2f 20 5 := by
  have h := C5_unlock ⟨0, some Axis.vertical⟩ 10 (vec2f 20 5) Axis.vertical rfl
    (by norm_num [SCROLL_EVENT_SEPARATION])
  have hnone : (OngoingScroll.filter ⟨0, some Axis.vertical⟩ 10 (vec2f 20 5)).1 = none :=
    h.1.mpr (by norm_num [vec2f, abs, unlock_dominates])
  exact ⟨rfl, by norm_num [SCROLL_EVENT_SEPARATION], hnone, h.2 hnone⟩

/-- C6, counterexample: `ScrollManager::set_anchor` does not clear the
last-autoscroll cache — starting from a manager whose `last_autoscroll` is
populated, it is still populated afterwards, refuting the claim that every
explicit scroll-position mutation clears both the pending autoscroll request
and the last-autoscroll cache. -/
theorem C6_counterexample :
    (({ ScrollManager.new 0 with
        last_autoscroll := some (vec2f 0 0, 1, 2, 3) }).set_anchor
      ScrollAnchor.new 0 true none (Ctx.init true)).1.last_autoscroll ≠ none := by
  simp [set_anchor_eq]

/-- C6, amended: every explicit scroll-position mutation
(`ScrollManager::set_scroll_position` or `ScrollManager::set_anchor`, from
any prior manager state) replaces the manager's anchor, emits a
scroll-position-changed notification carrying the given local flag, shows the
scrollbar, and clears the pending autoscroll request (in particular
`has_autoscroll_request()` is false immediately afterwards) — but the
last-autoscroll cache is left unchanged. -/
theorem C6_amended (m : ScrollManager) (a : ScrollAnchor) (tr : ℕ) (l : Bool)
    (w : Option ℤ) (cx : Ctx) (pos : Vector2F) (map : DisplaySnapshot) :
    ((m.set_anchor a tr l w cx).1.anchor = a ∧
     (m.set_anchor a tr l w cx).2.events
        = cx.events ++ [Event.scrollPositionChanged l] ∧
     (m.set_anchor a tr l w cx).1.show_scrollbars = true ∧
     (m.set_anchor a tr l w cx).1.autoscroll_request = none ∧
     (m.set_anchor a tr l w cx).1.has_autoscroll_request = false ∧
     (m.set_anchor a tr l w cx).1.last_autoscroll = m.last_autoscroll) ∧
    ((m.set_scroll_position pos map l w cx).2.events
        = cx.events ++ [Event.scrollPositionChanged l] ∧
     (m.set_scroll_position pos map l w cx).1.show_scrollbars = true ∧
     (m.set_scroll_position pos map l w cx).1.autoscroll_request = none ∧
     (m.set_scroll_position pos map l w cx).1.has_autoscroll_request = false ∧
     (m.set_scroll_position pos map l w cx).1.last_autoscroll = m.last_autoscroll) := by
  simp [ScrollManager.set_scroll_position, set_anchor_eq, ScrollManager.has_autoscroll_request]

/-- C7: in the hide-timer lifecycle, only the most recently scheduled timer
may hide the scrollbar. With auto-hide enabled, two `show_scrollbar` calls in
succession schedule distinct timers; the superseded first timer's firing is a
no-op (its handle was replaced, hence cancelled), while the second's firing
hides the scrollbar. With auto-hide disabled, `show_scrollbar` drops any
pending timer and the scrollbar stays visible under any sequence of timer
firings. -/
theorem C7_timer_staleness (m : ScrollManager) (cx : Ctx) :
    (cx.auto_hide = true →
      (m.show_scrollbar cx).1.hide_scrollbar_task = some cx.next_timer_id ∧
      ((m.show_scrollbar cx).1.show_scrollbar (m.show_scrollbar cx).2).1.hide_scrollbar_task
        = some (cx.next_timer_id + 1) ∧
      (((m.show_scrollbar cx).1.show_scrollbar (m.show_scrollbar cx).2).1.fire_hide_timer
          cx.next_timer_id)
        = ((m.show_scrollbar cx).1.show_scrollbar (m.show_scrollbar cx).2).1 ∧
      ((((m.show_scrollbar cx).1.show_scrollbar (m.show_scrollbar cx).2).1.fire_hide_timer
          (cx.next_timer_id + 1)).show_scrollbars) = false) ∧
    (cx.auto_hide = false →
      (m.show_scrollbar cx).1.hide_scrollbar_task = none ∧
      (m.show_scrollbar cx).1.show_scrollbars = true ∧
      ∀ ids : List ℕ,
        ids.foldl ScrollManager.fire_hide_timer (m.show_scrollbar cx).1
          = (m.show_scrollbar cx).1) := by
  constructor
  · intro hc
    cases hs : m.show_scrollbars <;>
      simp [ScrollManager.show_scrollbar, ScrollManager.fire_hide_timer, Ctx.notify, hc, hs]
  · intro hc
    have h1 : (m.show_scrollbar cx).1.hide_scrollbar_task = none := by
      cases hs : m.show_scrollbars <;>
        simp [ScrollManager.show_scrollbar, Ctx.notify, hc, hs]
    have h2 : (m.show_scrollbar cx).1.show_scrollbars = true := by
      cases hs : m.show_scrollbars <;>
        simp [ScrollManager.show_scrollbar, Ctx.notify, hc, hs]
    refine ⟨h1, h2, ?_⟩
    intro ids
    induction ids with
    | nil => rfl
    | cons i ids ih =>
        have hfix : ScrollManager.fire_hide_timer (m.show_scrollbar cx).1 i
            = (m.show_scrollbar cx).1 := by
          simp [ScrollManager.fire_hide_timer, h1]
        simpa [hfix] using ih

/-- C7, witness: from the fresh manager, two shows with auto-hide on (stale
timer 0 a no-op, timer 1 hides), and one show with auto-hide off (no timer;
firings change nothing). -/
theorem C7_timer_staleness_witness :
    ((Ctx.init true).auto_hide = true ∧
      ((((ScrollManager.new 0).show_scrollbar (Ctx.init true)).1.show_scrollbar
          ((ScrollManager.new 0).show_scrollbar (Ctx.init true)).2).1.fire_hide_timer 0)
        = (((ScrollManager.new 0).show_scrollbar (Ctx.init true)).1.show_scrollbar
            ((ScrollManager.new 0).show_scrollbar (Ctx.init true)).2).1 ∧
      (((((ScrollManager.new 0).show_scrollbar (Ctx.init true)).1.show_scrollbar
          ((ScrollManager.new 0).show_scrollbar (Ctx.init true)).2).1.fire_hide_timer
            1).show_scrollbars)
        = false) ∧
    ((Ctx.init false).auto_hide = false ∧
      ((ScrollManager.new 0).show_scrollbar (Ctx.init false)).1.hide_scrollbar_task = none ∧
      [5, 0, 3].foldl ScrollManager.fire_hide_timer
          ((ScrollManager.new 0).show_scrollbar (Ctx.init false)).1
        = ((ScrollManager.new 0).show_scrollbar (Ctx.init false)).1) := by
  have h1 := (C7_timer_staleness (ScrollManager.new 0) (Ctx.init true)).1 rfl
  have h2 := (C7_timer_staleness (ScrollManager.new 0) (Ctx.init false)).2 rfl
  exact ⟨⟨rfl, h1.2.2.1, h1.2.2.2⟩, ⟨rfl, h2.1, h2.2.2 [5, 0, 3]⟩⟩

/-- C8: `ScrollManager::clamp_scroll_left(max)` returns `false` and leaves
the manager (hence the offset) unchanged when `offset.x ≤ max`, and returns
`true` and sets `offset.x = max` when `offset.x > max`. -/
theorem C8_clamp (m : ScrollManager) (mx : ℚ) :
    (m.anchor.offset.x ≤ mx →
      (m.clamp_scroll_left mx).1 = false ∧ (m.clamp_scroll_left mx).2 = m) ∧
    (mx < m.anchor.offset.x →
      (m.clamp_scroll_left mx).1 = true ∧
      (m.clamp_scroll_left mx).2.anchor.offset.x = mx) := by
  unfold ScrollManager.clamp_scroll_left
  constructor
  · intro h
    rw [if_neg (not_lt.mpr h)]
    exact ⟨rfl, rfl⟩
  · intro h
    rw [if_pos h]
    exact ⟨rfl, rfl⟩

/-- C8, witness: the fresh manager (offset.x = 0) under bound 2 stays
unchanged with result `false`; under bound -1 it clamps to -1 with result
`true`. -/
theorem C8_clamp_witness :
    ((ScrollManager.new 0).anchor.offset.x ≤ 2 ∧
      ((ScrollManager.new 0).clamp_scroll_left 2).1 = false ∧
      ((ScrollManager.new 0).clamp_scroll_left 2).2 = ScrollManager.new 0) ∧
    ((-1 : ℚ) < (ScrollManager.new 0).anchor.offset.x ∧
      ((ScrollManager.new 0).clamp_scroll_left (-1)).1 = true ∧
      ((ScrollManager.new 0).clamp_scroll_left (-1)).2.anchor.offset.x = -1) := by
  have hle : (ScrollManager.new 0).anchor.offset.x ≤ 2 := by
    norm_num [ScrollManager.new, ScrollAnchor.new, Vector2F.zero]
  have hlt : (-1 : ℚ) < (ScrollManager.new 0).anchor.offset.x := by
    norm_num [ScrollManager.new, ScrollAnchor.new, Vector2F.zero]
  exact ⟨⟨hle, (C8_clamp (ScrollManager.new 0) 2).1 hle⟩,
    ⟨hlt, (C8_clamp (ScrollManager.new 0) (-1)).2 hlt⟩⟩

/-- C9: when the persistence read returns an error or a successful result
with no stored record, `Editor::read_scroll_position_from_db` performs no
mutation at all — the editor (its scroll manager included) and the
side-effect channel are returned unchanged, and no error surfaces. -/
theorem C9_db_missing (e : Editor) (cx : Ctx)
    (res : Except DbError (Option (ℕ × ℚ × ℚ)))
    (h : res = Except.ok none ∨ ∃ err, res = Except.error err) :
    e.read_scroll_position_from_db res cx = (e, cx) := by
  rcases h with h | ⟨err, h⟩ <;> subst h <;> rfl

/-- C9, witness: a missing record (`Ok(None)`) leaves a concrete editor and
channel untouched. -/
theorem C9_db_missing_witness :
    ((Except.ok none : Except DbError (Option (ℕ × ℚ × ℚ))) = Except.ok none ∨
      ∃ err, (Except.ok none : Except DbError (Option (ℕ × ℚ × ℚ))) = Except.error err) ∧
    (Editor.mk (ScrollManager.new 0) sampleBuffer none).read_scroll_position_from_db
        (Except.ok none) (Ctx.init true)
      = (Editor.mk (ScrollManager.new 0) sampleBuffer none, Ctx.init true) :=
  ⟨Or.inl rfl,
    C9_db_missing (Editor.mk (ScrollManager.new 0) sampleBuffer none) (Ctx.init true)
      (Except.ok none) (Or.inl rfl)⟩

/-- C10: `ScrollManager::clamp_scroll_left` mutates at most the anchor's
`offset.x`: `offset.y`, `top_anchor`, the pending autoscroll request, the
last-autoscroll cache, scrollbar visibility and the hide-timer handle are all
unchanged, and — its signature taking no view context — it emits no event,
schedules no persistence write and requests no redraw. -/
theorem C10_clamp_frame (m : ScrollManager) (mx : ℚ) (cx : Ctx) :
    (m.clamp_scroll_left mx).2.anchor.offset.y = m.anchor.offset.y ∧
    (m.clamp_scroll_left mx).2.anchor.top_anchor = m.anchor.top_anchor ∧
    (m.clamp_scroll_left mx).2.autoscroll_request = m.autoscroll_request ∧
    (m.clamp_scroll_left mx).2.last_autoscroll = m.last_autoscroll ∧
    (m.clamp_scroll_left mx).2.show_scrollbars = m.show_scrollbars ∧
    (m.clamp_scroll_left mx).2.hide_scrollbar_task = m.hide_scrollbar_task ∧
    (m.clamp_scroll_left_run mx cx).2 = cx := by
  unfold ScrollManager.clamp_scroll_left ScrollManager.clamp_scroll_left_run
  split <;> simp

end Scroll
